import Mathlib

/-!
Verification of the Rescue Project report query/filtering engine and media
ingestion pipeline.  The definitions below are a shallow embedding of the
Python source:

* `app/utils/helpers.py`   — `allowed_file`, `validate_image_file`,
  `save_uploaded_file`, `optimize_image`
* `app/routes/main.py`     — the `/search` route and the `/report` route's
  inline validation
* `app/routes/utils.py`    — the `/filter` route, the `/filter_reports`
  AJAX route and `get_simulated_status`
* `app/forms.py`           — the `ReportForm.description` length validator
* `app/models.py`          — the `Report` row type

Timestamps (`created_at`, `now`) are represented as seconds since the epoch
(`Nat`), nullable columns as `Option`.  SQLAlchemy query pipelines are
modelled as list filtering followed by an insertion sort with the ORDER BY
comparator; SQL `NULL` comparison semantics (a NULL `created_at` fails any
`>=`/`<`/`>` comparison, sorts first ascending and last descending, as in
SQLite) are made explicit in the comparator keys.  String operations are
carried out on the underlying character lists so that every definition
evaluates by kernel reduction.
-/

/-- A row of the `report` table (`app/models.py`).  `created_at` is nullable
in the model declaration (it only has a Python-side default), and the code
defends against `None`, so it is an `Option`. -/
structure Report where
  id : Nat
  name : String
  age : Int
  gender : String
  area : String
  description : String
  image : Option String
  user_id : Nat
  created_at : Option Nat
  status : String
deriving DecidableEq, Repr

/-- The identity-provider view of the caller (`flask_login.current_user`):
its primary key and admin flag. -/
structure Caller where
  id : Nat
  is_admin : Bool
deriving DecidableEq, Repr

/- ### String helpers (Python `in`, `str.lower`, SQL `ILIKE '%q%'`) -/

/-- Python `c in s` for a single character. -/
def strHasChar (s : String) (c : Char) : Bool :=
  s.toList.contains c

/-- Python `s.lower()` (ASCII case folding, as `Char.toLower`). -/
def lowerStr (s : String) : String :=
  String.mk (s.toList.map Char.toLower)

/-- `needle` occurs as a contiguous substring of `hay`. -/
def containsSub (needle : List Char) : List Char → Bool
  | [] => needle.isEmpty
  | c :: rest => needle.isPrefixOf (c :: rest) || containsSub needle rest

/-- SQL `field ILIKE '%pat%'`: case-insensitive substring match (the code
interpolates the user string into the pattern; wildcard-free patterns are
modelled). -/
def ilike (field pat : String) : Bool :=
  containsSub (pat.toList.map Char.toLower) (field.toList.map Char.toLower)

/-- Python `filename.rsplit(".", 1)[1]`: everything after the last dot
(meaningful only when a dot is present, as in the source's guard). -/
def extAfterLastDot (s : String) : String :=
  String.mk ((s.toList.reverse.takeWhile (fun c => c ≠ '.')).reverse)

/- ### Media validation (`app/utils/helpers.py`) -/

/-- `allowed_file(filename)`: `"." in filename and
filename.rsplit(".", 1)[1].lower() in {"png","jpg","jpeg","webp"}`. -/
def allowed_file (filename : String) : Bool :=
  strHasChar filename '.' &&
    ["png", "jpg", "jpeg", "webp"].contains (lowerStr (extAfterLastDot filename))

/-- The metadata of an uploaded file: its client-supplied filename and its
byte length (the source probes the length by seeking to the end). -/
structure UploadFile where
  filename : String
  size : Nat
deriving DecidableEq, Repr

/-- `validate_image_file(file)` (`app/utils/helpers.py`): returns
`(is_valid, message)`.  An absent/empty filename is rejected as
"No file selected", then the extension check, then the 10 MiB size check. -/
def validate_image_file (f : UploadFile) : Bool × String :=
  if f.filename = "" then (false, "No file selected")
  else if !allowed_file f.filename then
    (false, "Invalid file type. Only JPG, PNG, and WEBP files are allowed.")
  else if f.size > 10 * 1024 * 1024 then
    (false, "File size too large. Maximum size is 10MB.")
  else (true, "Valid file")

/-- C3: `MediaValidator` accepts an upload iff the filename has a
'.'-separated extension whose lowercase form is in {png, jpg, jpeg, webp}
and the byte length is at most 10 MiB; the 10,485,760/10,485,761 boundary
behaves as claimed, and every rejection carries a non-empty reason. -/
theorem validate_image_file_accepts_iff : ∀ f : UploadFile,
    ((validate_image_file f).fst = true ↔
      (strHasChar f.filename '.' = true ∧
       ["png", "jpg", "jpeg", "webp"].contains (lowerStr (extAfterLastDot f.filename)) = true ∧
       f.size ≤ 10485760)) ∧
    (validate_image_file f).snd ≠ "" ∧
    (validate_image_file ⟨"photo.png", 10485760⟩).fst = true ∧
    (validate_image_file ⟨"photo.png", 10485761⟩).fst = false := by
  intro f
  refine ⟨?_, ?_, by decide, by decide⟩
  · constructor
    · intro h
      by_cases h0 : f.filename = ""
      · simp [validate_image_file, h0] at h
      · by_cases h1 : allowed_file f.filename
        · by_cases h2 : f.size > 10 * 1024 * 1024
          · simp [validate_image_file, h0, h1, h2] at h
          · have hext := h1
            simp only [allowed_file, Bool.and_eq_true] at hext
            exact ⟨hext.1, hext.2, by omega⟩
        · simp [validate_image_file, h0, h1] at h
    · rintro ⟨h1, h2, h3⟩
      have hall : allowed_file f.filename = true := by
        simp only [allowed_file, Bool.and_eq_true]
        exact ⟨h1, h2⟩
      have h0 : f.filename ≠ "" := by
        intro he
        rw [he] at h1
        simp [strHasChar] at h1
      have hs : ¬ f.size > 10 * 1024 * 1024 := by omega
      simp [validate_image_file, h0, hall, hs]
  · by_cases h0 : f.filename = "" <;>
      by_cases h1 : allowed_file f.filename <;>
      by_cases h2 : f.size > 10 * 1024 * 1024 <;>
      simp [validate_image_file, h0, h1, h2]

/- ### A deterministic model of SQL ORDER BY: insertion sort on a Bool
comparator -/

/-- Insert `a` into `l` before the first element `b` with `le a b`. -/
def insertB (le : α → α → Bool) (a : α) : List α → List α
  | [] => [a]
  | b :: bs => if le a b then a :: b :: bs else b :: insertB le a bs

/-- Insertion sort with comparator `le`. -/
def sortB (le : α → α → Bool) : List α → List α
  | [] => []
  | a :: as => insertB le a (sortB le as)

theorem mem_insertB {le : α → α → Bool} {a x : α} :
    ∀ {l : List α}, x ∈ insertB le a l ↔ x = a ∨ x ∈ l := by
  intro l
  induction l with
  | nil => simp [insertB]
  | cons b bs ih =>
    by_cases h : le a b
    · simp [insertB, h]
    · simp only [insertB, h, Bool.false_eq_true, if_false, List.mem_cons, ih]
      tauto

theorem mem_sortB {le : α → α → Bool} {x : α} :
    ∀ {l : List α}, x ∈ sortB le l ↔ x ∈ l := by
  intro l
  induction l with
  | nil => simp [sortB]
  | cons a as ih => simp [sortB, mem_insertB, ih]

theorem pairwise_insertB {le : α → α → Bool}
    (htot : ∀ x y, le x y = true ∨ le y x = true)
    (htr : ∀ x y z, le x y = true → le y z = true → le x z = true)
    (a : α) : ∀ {l : List α}, l.Pairwise (fun x y => le x y = true) →
    (insertB le a l).Pairwise (fun x y => le x y = true) := by
  intro l
  induction l with
  | nil => simp [insertB]
  | cons b bs ih =>
    intro hp
    rw [List.pairwise_cons] at hp
    by_cases h : le a b
    · simp only [insertB, h, if_true]
      rw [List.pairwise_cons]
      refine ⟨?_, List.pairwise_cons.mpr hp⟩
      intro x hx
      rcases List.mem_cons.mp hx with hxb | hxbs
      · exact hxb ▸ h
      · exact htr a b x h (hp.1 x hxbs)
    · simp only [insertB, h, Bool.false_eq_true, if_false]
      rw [List.pairwise_cons]
      constructor
      · intro x hx
        rcases mem_insertB.mp hx with hxa | hxbs
        · subst hxa
          rcases htot x b with hh | hh
          · exact absurd hh h
          · exact hh
        · exact hp.1 x hxbs
      · exact ih hp.2

theorem pairwise_sortB {le : α → α → Bool}
    (htot : ∀ x y, le x y = true ∨ le y x = true)
    (htr : ∀ x y z, le x y = true → le y z = true → le x z = true) :
    ∀ (l : List α), (sortB le l).Pairwise (fun x y => le x y = true) := by
  intro l
  induction l with
  | nil => simp [sortB]
  | cons a as ih => exact pairwise_insertB htot htr a ih

/- ### ORDER BY keys.  SQLite sorts NULL before every value, so NULL is
last under DESC and first under ASC. -/

/-- Key for `ORDER BY created_at DESC` (ascending in this key). -/
def descOptKey : Option Nat → Int
  | none => 1
  | some t => -(t : Int)

/-- Key for `ORDER BY created_at ASC` (ascending in this key). -/
def ascOptKey : Option Nat → Int
  | none => -1
  | some t => (t : Int)

/-- Comparator from an integer key. -/
def intKeyLe (f : Report → Int) (x y : Report) : Bool :=
  decide (f x ≤ f y)

/-- Byte-wise (codepoint) string order, as SQL BINARY collation. -/
def listCharLeB : List Char → List Char → Bool
  | [], _ => true
  | _ :: _, [] => false
  | a :: as, b :: bs => if a == b then listCharLeB as bs else decide (a.toNat < b.toNat)

/-- Comparator from a string key. -/
def strKeyLe (f : Report → String) (x y : Report) : Bool :=
  listCharLeB (f x).toList (f y).toList

theorem intKeyLe_total (f : Report → Int) :
    ∀ x y, intKeyLe f x y = true ∨ intKeyLe f y x = true := by
  intro x y
  simp only [intKeyLe, decide_eq_true_eq]
  omega

theorem intKeyLe_trans (f : Report → Int) :
    ∀ x y z, intKeyLe f x y = true → intKeyLe f y z = true → intKeyLe f x z = true := by
  intro x y z
  simp only [intKeyLe, decide_eq_true_eq]
  omega

/- ### Derived display status (`get_simulated_status`, app/routes/utils.py
lines 224–235) -/

/-- `get_simulated_status(report)`: bucket the age of the report.  Python's
`(utcnow - created_at).days` floors toward minus infinity, hence `Int.fdiv`.
A report with no `created_at` is "active". -/
def get_simulated_status (now : Nat) (created_at : Option Nat) : String :=
  match created_at with
  | none => "active"
  | some t =>
    let days_old : Int := ((now : Int) - (t : Int)).fdiv 86400
    if days_old > 30 then "resolved"
    else if days_old < 7 then "pending"
    else if days_old < 14 then "urgent"
    else "active"

/-- C4: the age buckets of `StatusDeriver`: strictly more than 30 whole days
is "resolved", otherwise under 7 days is "pending", otherwise under 14 days
is "urgent", and otherwise "active"; ages of 31, 6, 10 and 20 days yield the
four labels respectively. -/
theorem get_simulated_status_buckets : ∀ (now t : Nat),
    (((now : Int) - (t : Int)).fdiv 86400 > 30 →
      get_simulated_status now (some t) = "resolved") ∧
    (((now : Int) - (t : Int)).fdiv 86400 ≤ 30 →
      ((now : Int) - (t : Int)).fdiv 86400 < 7 →
      get_simulated_status now (some t) = "pending") ∧
    (((now : Int) - (t : Int)).fdiv 86400 ≤ 30 →
      7 ≤ ((now : Int) - (t : Int)).fdiv 86400 →
      ((now : Int) - (t : Int)).fdiv 86400 < 14 →
      get_simulated_status now (some t) = "urgent") ∧
    (((now : Int) - (t : Int)).fdiv 86400 ≤ 30 →
      14 ≤ ((now : Int) - (t : Int)).fdiv 86400 →
      get_simulated_status now (some t) = "active") ∧
    get_simulated_status (31 * 86400) (some 0) = "resolved" ∧
    get_simulated_status (6 * 86400) (some 0) = "pending" ∧
    get_simulated_status (10 * 86400) (some 0) = "urgent" ∧
    get_simulated_status (20 * 86400) (some 0) = "active" := by
  intro now t
  refine ⟨?_, ?_, ?_, ?_, by decide, by decide, by decide, by decide⟩
  · intro h
    simp [get_simulated_status, h]
  · intro h1 h2
    simp only [get_simulated_status]
    split_ifs <;> first | rfl | omega
  · intro h1 h2 h3
    simp only [get_simulated_status]
    split_ifs <;> first | rfl | omega
  · intro h1 h2
    simp only [get_simulated_status]
    split_ifs <;> first | rfl | omega

/-- Witness for C4 at a concrete input: 40 whole days old is "resolved". -/
theorem get_simulated_status_buckets_witness :
    get_simulated_status (40 * 86400) (some 0) = "resolved" :=
  (get_simulated_status_buckets (40 * 86400) 0).1 (by decide)

/- ### Python `int()` and the `"min-max"` age-range token
(`app/routes/utils.py` lines 87–94) -/

/-- Continue parsing the digits of a Python integer literal: underscores are
allowed as separators between digits only. -/
def pyDigitsAux (acc : Nat) : List Char → Option Nat
  | [] => some acc
  | '_' :: c :: rest =>
    if c.isDigit then pyDigitsAux (acc * 10 + (c.toNat - 48)) rest else none
  | ['_'] => none
  | c :: rest =>
    if c.isDigit then pyDigitsAux (acc * 10 + (c.toNat - 48)) rest else none

/-- A non-empty all-digit (with interior underscores) character run. -/
def pyDigits : List Char → Option Nat
  | [] => none
  | c :: rest => if c.isDigit then pyDigitsAux (c.toNat - 48) rest else none

/-- Python `s.strip()` over a character list. -/
def trimChars (cs : List Char) : List Char :=
  ((cs.dropWhile Char.isWhitespace).reverse.dropWhile Char.isWhitespace).reverse

/-- Python `int(s)` for a decimal string: surrounding whitespace is
stripped, then an optional sign and a digit run; anything else raises
`ValueError`, i.e. `none`. -/
def pyIntFromChars (cs : List Char) : Option Int :=
  match trimChars cs with
  | '-' :: rest => (pyDigits rest).map (fun n => -(n : Int))
  | '+' :: rest => (pyDigits rest).map (fun n => (n : Int))
  | rest => (pyDigits rest).map (fun n => (n : Int))

/-- Python `s.split('-')`. -/
def splitOnDash : List Char → List (List Char)
  | [] => [[]]
  | c :: rest =>
    let r := splitOnDash rest
    if c = '-' then [] :: r
    else
      match r with
      | [] => [[c]]
      | h :: t => (c :: h) :: t

/-- The `/filter` route's age-range handling: an empty token or one without
`'-'` adds no constraint; `min_age, max_age = map(int, age_range.split('-'))`
raises `ValueError` (caught, ignored) unless the split has exactly two parts
and both parse as integers. -/
def parseAgeRange (s : String) : Option (Int × Int) :=
  if s = "" then none
  else if strHasChar s '-' then
    match splitOnDash s.toList with
    | [a, b] =>
      match pyIntFromChars a, pyIntFromChars b with
      | some lo, some hi => some (lo, hi)
      | _, _ => none
    | _ => none
  else none

/- ### The full-page `/filter` route (`app/routes/utils.py` lines 48–147) -/

/-- The request parameters of `/filter`, after the route's `.strip()` calls;
absent parameters arrive as `""` (`sort` as `"newest"`). -/
structure FilterArgs where
  q : String
  gender : String
  age_range : String
  area : String
  date_range : String
  status : String
  sort : String
deriving DecidableEq, Repr

/-- Visibility scoping: admins query the whole table, everyone else only
rows with their own `user_id`. -/
def scopeFor (c : Caller) (store : List Report) : List Report :=
  if c.is_admin then store else store.filter (fun r => r.user_id == c.id)

/-- The `date_range` token of `/filter` translated to a lower bound on
`created_at` (`now` is seconds since the epoch; "today" floors to the start
of the day; subtraction truncates at the epoch, irrelevant for realistic
`now`).  Unrecognized or empty tokens add no constraint. -/
def dateCutoff (tok : String) (now : Nat) : Option Nat :=
  if tok = "today" then some (now - now % 86400)
  else if tok = "week" then some (now - 7 * 86400)
  else if tok = "month" then some (now - 30 * 86400)
  else if tok = "3months" then some (now - 90 * 86400)
  else if tok = "6months" then some (now - 180 * 86400)
  else if tok = "year" then some (now - 365 * 86400)
  else none

/-- The conjunction of the `/filter` route's structured filters over one
row (text, gender, age range, area, date window, stored status).  A NULL
`created_at` fails the SQL `created_at >= cutoff` comparison. -/
def pageMatches (a : FilterArgs) (now : Nat) (r : Report) : Bool :=
  (if a.q = "" then true
   else ilike r.name a.q || ilike r.area a.q || ilike r.description a.q) &&
  (if a.gender = "" then true else r.gender == a.gender) &&
  (match parseAgeRange a.age_range with
   | some (lo, hi) => decide (lo ≤ r.age) && decide (r.age ≤ hi)
   | none => true) &&
  (if a.area = "" then true else ilike r.area a.area) &&
  (match dateCutoff a.date_range now with
   | some cut =>
     match r.created_at with
     | some t => decide (cut ≤ t)
     | none => false
   | none => true) &&
  (if a.status = "" then true else r.status == a.status)

/-- The `/filter` route: scope, filter, then the sort dispatch of lines
130–140 — `oldest`, `name`, `age_asc`, `age_desc` have branches; every
other token (including the default `newest`, `area`, `status`) falls to
`created_at DESC`. -/
def filterPage (c : Caller) (a : FilterArgs) (now : Nat) (store : List Report) :
    List Report :=
  let res := (scopeFor c store).filter (pageMatches a now)
  if a.sort = "oldest" then sortB (intKeyLe (fun r => ascOptKey r.created_at)) res
  else if a.sort = "name" then sortB (strKeyLe Report.name) res
  else if a.sort = "age_asc" then sortB (intKeyLe (fun r => r.age)) res
  else if a.sort = "age_desc" then sortB (intKeyLe (fun r => -r.age)) res
  else sortB (intKeyLe (fun r => descOptKey r.created_at)) res

/-- C7: a malformed `age_range` token is silently ignored — the `/filter`
result is identical to the same request with no `age_range` at all, for
every caller, every other criterion and every store. -/
theorem filter_malformed_age_range_ignored :
    ∀ (c : Caller) (a : FilterArgs) (s : String) (now : Nat) (store : List Report),
    parseAgeRange s = none →
    filterPage c { a with age_range := s } now store =
      filterPage c { a with age_range := "" } now store := by
  intro c a s now store h
  have h0 : parseAgeRange "" = none := rfl
  have hm : pageMatches { a with age_range := s } now =
      pageMatches { a with age_range := "" } now := by
    funext r
    simp only [pageMatches, h, h0]
  simp only [filterPage, hm]

/- ### The `/search` route (`app/routes/main.py` lines 366–463) -/

/-- The text filter of `/search` (and `/filter`, `/filter_reports`):
name OR area OR description contains the query, case-insensitively. -/
def textMatch (q : String) (r : Report) : Bool :=
  ilike r.name q || ilike r.area q || ilike r.description q

/-- Lexicographic `≤` on a (Nat, Nat, Int) sort key. -/
def lexLe3 (x y : Nat × Nat × Int) : Bool :=
  decide (x.1 < y.1) ||
    (x.1 == y.1 &&
      (decide (x.2.1 < y.2.1) || (x.2.1 == y.2.1 && decide (x.2.2 ≤ y.2.2))))

/-- The ORDER BY key of the text-search branch:
`name ILIKE '%q%' DESC, area ILIKE '%q%' DESC, created_at DESC`
(matches rank 0, non-matches rank 1). -/
def relevanceKey (q : String) (r : Report) : Nat × Nat × Int :=
  ((if ilike r.name q then 0 else 1),
   (if ilike r.area q then 0 else 1),
   descOptKey r.created_at)

/-- The relevance comparator of `/search` with a text query. -/
def relLe (q : String) (x y : Report) : Bool :=
  lexLe3 (relevanceKey q x) (relevanceKey q y)

/-- Flask-SQLAlchemy `paginate(page=page, per_page=12, error_out=False)`:
an invalid page number is clamped to 1; the page is a 12-row slice. -/
def paginateItems (l : List α) (page : Nat) : List α :=
  (l.drop ((max page 1 - 1) * 12)).take 12

/-- The `/search` route's result rows (before display formatting, which no
claim depends on): an empty query lists the caller's reports newest first;
a non-empty query filters by `textMatch` and applies the relevance order.
Both branches are visibility-scoped and paginated at 12. -/
def searchReports (c : Caller) (q : String) (page : Nat) (store : List Report) :
    List Report :=
  if q = "" then
    paginateItems (sortB (intKeyLe (fun r => descOptKey r.created_at)) (scopeFor c store)) page
  else
    paginateItems (sortB (relLe q) ((scopeFor c store).filter (textMatch q))) page

/-- A `suggestions=true` response item: `{text: "<name> - <area>", id}`
(the URL is a function of `id` and is omitted). -/
structure Suggestion where
  text : String
  id : Nat
deriving DecidableEq, Repr

/-- The `suggestions=true` branch of `/search`: an empty query returns `[]`
before any store access; otherwise the first 5 formatted result rows. -/
def searchSuggestions (c : Caller) (q : String) (page : Nat) (store : List Report) :
    List Suggestion :=
  if q = "" then []
  else ((searchReports c q page store).map
    (fun r => ⟨r.name ++ " - " ++ r.area, r.id⟩)).take 5

theorem lexLe3_total : ∀ x y, lexLe3 x y = true ∨ lexLe3 y x = true := by
  intro x y
  simp only [lexLe3, Bool.or_eq_true, Bool.and_eq_true, decide_eq_true_eq, beq_iff_eq]
  omega

theorem lexLe3_trans :
    ∀ x y z, lexLe3 x y = true → lexLe3 y z = true → lexLe3 x z = true := by
  intro x y z
  simp only [lexLe3, Bool.or_eq_true, Bool.and_eq_true, decide_eq_true_eq, beq_iff_eq]
  omega

theorem relLe_total (q : String) : ∀ x y, relLe q x y = true ∨ relLe q y x = true := by
  intro x y
  exact lexLe3_total _ _

theorem relLe_trans (q : String) :
    ∀ x y z, relLe q x y = true → relLe q y z = true → relLe q x z = true := by
  intro x y z
  exact lexLe3_trans _ _ _

/-- If `x` precedes `y` in the relevance order and `y` is a name match,
then `x` is a name match as well. -/
theorem relLe_name_first {q : String} {x y : Report}
    (h : relLe q x y = true) (hy : ilike y.name q = true) :
    ilike x.name q = true := by
  by_cases hx : ilike x.name q
  · exact hx
  · simp [relLe, relevanceKey, lexLe3, hx, hy] at h

theorem searchReports_sublist (c : Caller) (q : String) (page : Nat)
    (store : List Report) (h : q ≠ "") :
    List.Sublist (searchReports c q page store)
      (sortB (relLe q) ((scopeFor c store).filter (textMatch q))) := by
  simp only [searchReports, h, if_neg, paginateItems, reduceIte]
  exact (List.take_sublist _ _).trans (List.drop_sublist _ _)

/-- C2 (amended): with a non-empty query, `/search` results are ordered by
the three-component relevance key — name matches first, then area matches,
then `created_at` descending; in particular every name-matching result
precedes every result that matches only in area or description. -/
theorem search_text_relevance_order :
    ∀ (c : Caller) (q : String) (page : Nat) (store : List Report), q ≠ "" →
    (searchReports c q page store).Pairwise (fun x y => relLe q x y = true) ∧
    (∀ (i j : Fin (searchReports c q page store).length), (i : Nat) < (j : Nat) →
      ilike ((searchReports c q page store).get j).name q = true →
      ilike ((searchReports c q page store).get i).name q = true) := by
  intro c q page store h
  have hp : (searchReports c q page store).Pairwise (fun x y => relLe q x y = true) :=
    (pairwise_sortB (relLe_total q) (relLe_trans q) _).sublist
      (searchReports_sublist c q page store h)
  refine ⟨hp, ?_⟩
  intro i j hij hj
  exact relLe_name_first (List.pairwise_iff_get.mp hp i j hij) hj

/-- C5: with an empty query, the suggestions branch returns `[]` without
consulting the store (the result is store-independent), and the page branch
returns the first page — at most 12 rows — of the caller's visibility-scoped
reports ordered by `created_at` descending. -/
theorem search_empty_query_default_listing :
    ∀ (c : Caller) (store store2 : List Report),
    searchSuggestions c "" 1 store = [] ∧
    searchSuggestions c "" 1 store = searchSuggestions c "" 1 store2 ∧
    searchReports c "" 1 store =
      (sortB (intKeyLe (fun r => descOptKey r.created_at)) (scopeFor c store)).take 12 ∧
    (searchReports c "" 1 store).Pairwise
      (fun x y => intKeyLe (fun r => descOptKey r.created_at) x y = true) ∧
    (searchReports c "" 1 store).length ≤ 12 := by
  intro c store store2
  have he : searchReports c "" 1 store =
      (sortB (intKeyLe (fun r => descOptKey r.created_at)) (scopeFor c store)).take 12 := by
    simp [searchReports, paginateItems]
  refine ⟨rfl, rfl, he, ?_, ?_⟩
  · rw [he]
    exact (pairwise_sortB (intKeyLe_total _) (intKeyLe_trans _) _).sublist
      (List.take_sublist _ _)
  · rw [he]
    exact List.length_take_le _ _

/-- Sample reports used as concrete inputs in witnesses below. -/
def repAda : Report :=
  { id := 1, name := "Ada Annsworth", age := 30, gender := "Female",
    area := "Lahore", description := "Wearing a green jacket near the canal",
    image := none, user_id := 1, created_at := some 1000, status := "active" }

def repBo : Report :=
  { id := 2, name := "Bo Field", age := 41, gender := "Male",
    area := "Karachi", description := "Last seen at the harbour",
    image := none, user_id := 2, created_at := some 2000, status := "pending" }

def wStore : List Report := [repAda, repBo]

/-- Witness for C2 at a concrete input: searching "ann" as an admin. -/
theorem search_text_relevance_order_witness :
    (searchReports ⟨1, true⟩ "ann" 1 wStore).Pairwise
      (fun x y => relLe "ann" x y = true) :=
  (search_text_relevance_order ⟨1, true⟩ "ann" 1 wStore (by decide)).1

/-- The ordering the claim asserts, literally: name matches strictly first,
every remaining tie broken by `created_at` descending. -/
def c2ClaimOrder (q : String) (x y : Report) : Bool :=
  if (ilike x.name q) != (ilike y.name q) then ilike x.name q && !(ilike y.name q)
  else intKeyLe (fun r => descOptKey r.created_at) x y

/-- Neither report's name contains "x"; `repXDesc` matches only in the
description and is newer, `repXArea` matches in the area and is older. -/
def repXDesc : Report :=
  { id := 3, name := "alice", age := 30, gender := "Female",
    area := "qq", description := "seen near an x marker",
    image := none, user_id := 1, created_at := some 100, status := "active" }

def repXArea : Report :=
  { id := 4, name := "bob", age := 40, gender := "Male",
    area := "xtown", description := "no match here",
    image := none, user_id := 1, created_at := some 50, status := "active" }

def cexStoreC2 : List Report := [repXDesc, repXArea]

/-- C2 counterexample: the code ranks area matches above description-only
matches before looking at `created_at`, so among two non-name-matching
results the older area match precedes the newer description match — the
claimed "remaining ties broken by createdAt descending" fails. -/
theorem search_text_relevance_order_cex :
    ¬ (searchReports ⟨1, true⟩ "x" 1 cexStoreC2).Pairwise
        (fun x y => c2ClaimOrder "x" x y = true) := by
  decide

/- ### The AJAX `/filter_reports` route (`app/routes/utils.py` lines
149–252) -/

/-- The form parameters of `/filter_reports`; absent fields arrive as `""`
(`sort` as `"newest"`). -/
structure LiveArgs where
  search : String
  status : String
  area : String
  date : String
  sort : String
deriving DecidableEq, Repr

/-- The status constraint of `/filter_reports` (lines 177–187): only the
tokens "resolved" (`created_at < now − 30d`) and "pending"
(`created_at > now − 7d`) constrain the query; an empty or any other token
adds nothing.  A NULL `created_at` fails either SQL comparison. -/
def liveStatusCond (status : String) (now : Nat) (r : Report) : Bool :=
  if status = "" then true
  else if status = "resolved" then
    match r.created_at with
    | some t => decide ((t : Int) < (now : Int) - 30 * 86400)
    | none => false
  else if status = "pending" then
    match r.created_at with
    | some t => decide ((t : Int) > (now : Int) - 7 * 86400)
    | none => false
  else true

/-- The `date` token of `/filter_reports`: only today/week/month/year. -/
def liveDateCutoff (tok : String) (now : Nat) : Option Nat :=
  if tok = "today" then some (now - now % 86400)
  else if tok = "week" then some (now - 7 * 86400)
  else if tok = "month" then some (now - 30 * 86400)
  else if tok = "year" then some (now - 365 * 86400)
  else none

/-- The conjunction of the `/filter_reports` filters over one row. -/
def liveMatches (a : LiveArgs) (now : Nat) (r : Report) : Bool :=
  (if a.search = "" then true else textMatch a.search r) &&
  liveStatusCond a.status now r &&
  (if a.area = "" then true else ilike r.area a.area) &&
  (match liveDateCutoff a.date now with
   | some cut =>
     match r.created_at with
     | some t => decide (cut ≤ t)
     | none => false
   | none => true)

/-- The rows `query.all()` returns in `/filter_reports`: scope, filter, then
the sort dispatch of lines 209–219 — `newest`, `oldest`, `name`, `area`,
`status` have branches (`status` falls back to `created_at DESC`); any other
token applies no ORDER BY at all, leaving the filtered rows unsorted. -/
def filterReportsQuery (c : Caller) (a : LiveArgs) (now : Nat)
    (store : List Report) : List Report :=
  let res := (scopeFor c store).filter (liveMatches a now)
  if a.sort = "newest" then sortB (intKeyLe (fun r => descOptKey r.created_at)) res
  else if a.sort = "oldest" then sortB (intKeyLe (fun r => ascOptKey r.created_at)) res
  else if a.sort = "name" then sortB (strKeyLe Report.name) res
  else if a.sort = "area" then sortB (strKeyLe Report.area) res
  else if a.sort = "status" then sortB (intKeyLe (fun r => descOptKey r.created_at)) res
  else res

/-- One JSON item of the `/filter_reports` response.  `created_at` is kept
as the raw timestamp: the route renders it with
`strftime('%Y-%m-%d %H:%M')` (or `'N/A'` when NULL), an injective rendering
at this granularity that no claim inspects. -/
structure ReportSummary where
  id : Nat
  name : String
  age : Int
  gender : String
  area : String
  description : String
  image : Option String
  status : String
  created_at : Option Nat
deriving DecidableEq, Repr

/-- The per-row JSON payload built at lines 237–250: all stored fields plus
the simulated (derived) status label. -/
def summarize (now : Nat) (r : Report) : ReportSummary :=
  { id := r.id, name := r.name, age := r.age, gender := r.gender,
    area := r.area, description := r.description, image := r.image,
    status := get_simulated_status now r.created_at,
    created_at := r.created_at }

/-- The full `/filter_reports` response. -/
def filter_reports (c : Caller) (a : LiveArgs) (now : Nat)
    (store : List Report) : List ReportSummary :=
  (filterReportsQuery c a now store).map (summarize now)

/-- C10: a `/filter_reports` status token other than "resolved"/"pending"
(e.g. "urgent", "active") constrains nothing: the response — including every
derived status label — is identical to the request with an empty status
token, for every caller, every other input and every store. -/
theorem filter_reports_other_status_noop :
    ∀ (c : Caller) (a : LiveArgs) (now : Nat) (store : List Report),
    a.status ≠ "resolved" → a.status ≠ "pending" →
    filter_reports c a now store =
      filter_reports c { a with status := "" } now store := by
  intro c a now store h1 h2
  have hs : ∀ r, liveStatusCond a.status now r = liveStatusCond "" now r := by
    intro r
    by_cases h0 : a.status = ""
    · rw [h0]
    · simp only [liveStatusCond, h0, h1, h2, if_false, if_true, reduceIte]
  have hm : liveMatches a now = liveMatches { a with status := "" } now := by
    funext r
    simp only [liveMatches, hs r]
  simp only [filter_reports, filterReportsQuery, hm]

/-- Witness for C10 at a concrete input: status "urgent" behaves as "". -/
theorem filter_reports_other_status_noop_witness :
    filter_reports ⟨1, false⟩ ⟨"", "urgent", "", "", "newest"⟩ (40 * 86400) wStore =
      filter_reports ⟨1, false⟩ ⟨"", "", "", "", "newest"⟩ (40 * 86400) wStore :=
  filter_reports_other_status_noop ⟨1, false⟩ ⟨"", "urgent", "", "", "newest"⟩
    (40 * 86400) wStore (by decide) (by decide)

/-- C6 (amended): the actual sort-token dispatch of the two views.  The
full-page `/filter` knows `oldest`, `name`, `age_asc`, `age_desc` and sends
everything else — `newest` (the default), `area`, `status` — to
`created_at DESC`; the AJAX `/filter_reports` knows `newest` (the default),
`oldest`, `name`, `area` and `status` (`created_at DESC`), and any other
token (including `age_asc`/`age_desc`) applies no ORDER BY at all. -/
theorem sort_token_mapping :
    ∀ (c : Caller) (a : FilterArgs) (b : LiveArgs) (now : Nat) (store : List Report),
    (filterPage c { a with sort := "newest" } now store =
      sortB (intKeyLe (fun r => descOptKey r.created_at))
        ((scopeFor c store).filter (pageMatches a now))) ∧
    (filterPage c { a with sort := "oldest" } now store =
      sortB (intKeyLe (fun r => ascOptKey r.created_at))
        ((scopeFor c store).filter (pageMatches a now))) ∧
    (filterPage c { a with sort := "name" } now store =
      sortB (strKeyLe Report.name) ((scopeFor c store).filter (pageMatches a now))) ∧
    (filterPage c { a with sort := "age_asc" } now store =
      sortB (intKeyLe (fun r => r.age)) ((scopeFor c store).filter (pageMatches a now))) ∧
    (filterPage c { a with sort := "age_desc" } now store =
      sortB (intKeyLe (fun r => -r.age)) ((scopeFor c store).filter (pageMatches a now))) ∧
    (filterPage c { a with sort := "area" } now store =
      sortB (intKeyLe (fun r => descOptKey r.created_at))
        ((scopeFor c store).filter (pageMatches a now))) ∧
    (filterPage c { a with sort := "status" } now store =
      sortB (intKeyLe (fun r => descOptKey r.created_at))
        ((scopeFor c store).filter (pageMatches a now))) ∧
    (filterReportsQuery c { b with sort := "newest" } now store =
      sortB (intKeyLe (fun r => descOptKey r.created_at))
        ((scopeFor c store).filter (liveMatches b now))) ∧
    (filterReportsQuery c { b with sort := "oldest" } now store =
      sortB (intKeyLe (fun r => ascOptKey r.created_at))
        ((scopeFor c store).filter (liveMatches b now))) ∧
    (filterReportsQuery c { b with sort := "name" } now store =
      sortB (strKeyLe Report.name) ((scopeFor c store).filter (liveMatches b now))) ∧
    (filterReportsQuery c { b with sort := "area" } now store =
      sortB (strKeyLe Report.area) ((scopeFor c store).filter (liveMatches b now))) ∧
    (filterReportsQuery c { b with sort := "status" } now store =
      sortB (intKeyLe (fun r => descOptKey r.created_at))
        ((scopeFor c store).filter (liveMatches b now))) ∧
    (filterReportsQuery c { b with sort := "age_asc" } now store =
      (scopeFor c store).filter (liveMatches b now)) ∧
    (filterReportsQuery c { b with sort := "age_desc" } now store =
      (scopeFor c store).filter (liveMatches b now)) := by
  intro c a b now store
  exact ⟨rfl, rfl, rfl, rfl, rfl, rfl, rfl, rfl, rfl, rfl, rfl, rfl, rfl, rfl⟩

/-- Two reports whose area order, age order and recency order all disagree. -/
def repAreaAA : Report :=
  { id := 5, name := "Carl", age := 20, gender := "Male",
    area := "aa", description := "by the bridge", image := none,
    user_id := 1, created_at := some 10, status := "active" }

def repAreaZZ : Report :=
  { id := 6, name := "Dora", age := 5, gender := "Female",
    area := "zz", description := "by the mill", image := none,
    user_id := 1, created_at := some 99, status := "active" }

def cexStoreC6 : List Report := [repAreaAA, repAreaZZ]

/-- C6 counterexample: `/filter` with `sort=area` does NOT order by area
ascending (it falls back to `created_at DESC`), and `/filter_reports` with
`sort=age_asc` does NOT order by age ascending (it applies no ordering). -/
theorem sort_token_mapping_cex :
    (¬ (filterPage ⟨1, true⟩ ⟨"", "", "", "", "", "", "area"⟩ 1000 cexStoreC6).Pairwise
        (fun x y => strKeyLe Report.area x y = true)) ∧
    (¬ (filterReportsQuery ⟨1, true⟩ ⟨"", "", "", "", "age_asc"⟩ 1000 cexStoreC6).Pairwise
        (fun x y => intKeyLe (fun r => r.age) x y = true)) := by
  constructor <;> decide

/- ### C1: visibility scoping -/

theorem user_id_of_mem_scopeFor {c : Caller} {store : List Report} {r : Report}
    (hadm : c.is_admin = false) (h : r ∈ scopeFor c store) : r.user_id = c.id := by
  rw [scopeFor, hadm] at h
  simp only [Bool.false_eq_true, if_false, List.mem_filter, beq_iff_eq] at h
  exact h.2

theorem paginateItems_subset {l : List α} {page : Nat} : paginateItems l page ⊆ l :=
  ((List.take_sublist _ _).trans (List.drop_sublist _ _)).subset

theorem mem_searchReports_scope {c : Caller} {q : String} {page : Nat}
    {store : List Report} {r : Report} (h : r ∈ searchReports c q page store) :
    r ∈ scopeFor c store := by
  rw [searchReports] at h
  split at h
  · exact mem_sortB.mp (paginateItems_subset h)
  · exact (List.mem_filter.mp (mem_sortB.mp (paginateItems_subset h))).1

theorem mem_filterPage_scope {c : Caller} {a : FilterArgs} {now : Nat}
    {store : List Report} {r : Report} (h : r ∈ filterPage c a now store) :
    r ∈ scopeFor c store := by
  simp only [filterPage] at h
  repeat' split at h
  all_goals exact (List.mem_filter.mp (mem_sortB.mp h)).1

theorem mem_filterReportsQuery_scope {c : Caller} {a : LiveArgs} {now : Nat}
    {store : List Report} {r : Report} (h : r ∈ filterReportsQuery c a now store) :
    r ∈ scopeFor c store := by
  simp only [filterReportsQuery] at h
  repeat' split at h
  all_goals first
    | exact (List.mem_filter.mp (mem_sortB.mp h)).1
    | exact (List.mem_filter.mp h).1

/-- C1: for a non-admin caller, every report produced by `/search` (either
branch, any page), `/filter` and `/filter_reports` belongs to the caller,
for every combination of criteria and every store. -/
theorem nonadmin_visibility_invariant :
    ∀ (c : Caller) (q : String) (page : Nat) (a : FilterArgs) (b : LiveArgs)
      (now : Nat) (store : List Report) (r : Report), c.is_admin = false →
    (r ∈ searchReports c q page store → r.user_id = c.id) ∧
    (r ∈ filterPage c a now store → r.user_id = c.id) ∧
    (r ∈ filterReportsQuery c b now store → r.user_id = c.id) := by
  intro c q page a b now store r hadm
  exact ⟨fun h => user_id_of_mem_scopeFor hadm (mem_searchReports_scope h),
    fun h => user_id_of_mem_scopeFor hadm (mem_filterPage_scope h),
    fun h => user_id_of_mem_scopeFor hadm (mem_filterReportsQuery_scope h)⟩

/-- Witness for C1 at a concrete input: a non-admin search over `wStore`
yields a report owned by caller 1. -/
theorem nonadmin_visibility_invariant_witness : repAda.user_id = 1 :=
  (nonadmin_visibility_invariant ⟨1, false⟩ "" 1 ⟨"", "", "", "", "", "", "newest"⟩
    ⟨"", "", "", "", "newest"⟩ 0 wStore repAda rfl).1 (by decide)

/- ### Media ingestion (`save_uploaded_file`, `app/utils/helpers.py` lines
37–72).  Python side effects that can raise are passed in as `Except`
values: `w` is the outcome of `file.save(...)` (plus the directory
creation), `o` the outcome of `optimize_image(...)` — which re-raises on
failure (lines 89–91), so its failure reaches the inner `except` of
`save_uploaded_file`. -/

/-- The body of `save_uploaded_file` up to (but excluding) the outer
`try/except`: validation reject returns `None`; a write failure propagates
as an exception; an `optimize_image` failure is caught by the inner
`except` block, logged and swallowed, and the generated
`<uuid-hex>.<lowercased-extension>` name is returned. -/
def save_uploaded_file_body (f : UploadFile) (u : String)
    (w o : Except String Unit) : Except String (Option String) :=
  if (validate_image_file f).fst = false then Except.ok none
  else
    let filename := u ++ "." ++ lowerStr (extAfterLastDot f.filename)
    match w with
    | Except.error e => Except.error e
    | Except.ok _ =>
      match o with
      | Except.error _ => Except.ok (some filename)
      | Except.ok _ => Except.ok (some filename)

/-- `save_uploaded_file`: the outer `try/except` catches every exception,
logs it and returns `None`, so the caller always receives a filename or
`None`. -/
def save_uploaded_file (f : UploadFile) (u : String)
    (w o : Except String Unit) : Option String :=
  match save_uploaded_file_body f u w o with
  | Except.ok r => r
  | Except.error _ => none

/-- C8: media ingestion never raises: a validation rejection or a storage
failure yields `none`, and when validation and the write succeed the
result is the generated filename regardless of the optimization outcome —
an optimizer failure is swallowed. -/
theorem save_uploaded_file_never_raises :
    ∀ (f : UploadFile) (u : String) (w o : Except String Unit),
    ((validate_image_file f).fst = false → save_uploaded_file f u w o = none) ∧
    (∀ e, w = Except.error e → save_uploaded_file f u w o = none) ∧
    ((validate_image_file f).fst = true → w = Except.ok () →
      save_uploaded_file f u w o =
        some (u ++ "." ++ lowerStr (extAfterLastDot f.filename))) ∧
    (save_uploaded_file f u w o = none ∨
      save_uploaded_file f u w o =
        some (u ++ "." ++ lowerStr (extAfterLastDot f.filename))) := by
  intro f u w o
  refine ⟨?_, ?_, ?_, ?_⟩
  · intro hv
    simp [save_uploaded_file, save_uploaded_file_body, hv]
  · intro e he
    subst he
    by_cases hv : (validate_image_file f).fst = false <;>
      simp [save_uploaded_file, save_uploaded_file_body, hv]
  · intro hv hw
    subst hw
    have hv' : ¬ (validate_image_file f).fst = false := by simp [hv]
    cases o <;> simp [save_uploaded_file, save_uploaded_file_body, hv']
  · by_cases hv : (validate_image_file f).fst = false
    · exact Or.inl (by simp [save_uploaded_file, save_uploaded_file_body, hv])
    · cases w with
      | error e => exact Or.inl (by simp [save_uploaded_file, save_uploaded_file_body, hv])
      | ok v =>
        refine Or.inr ?_
        cases o <;> simp [save_uploaded_file, save_uploaded_file_body, hv]

/-- Witness for C8 at a concrete input: validation and write succeed, the
optimizer raises, and ingestion still returns the generated filename. -/
theorem save_uploaded_file_never_raises_witness :
    save_uploaded_file ⟨"cat.JPG", 1000⟩ "abc123" (Except.ok ())
      (Except.error "optimizer crashed") = some "abc123.jpg" := by
  have h := (save_uploaded_file_never_raises ⟨"cat.JPG", 1000⟩ "abc123"
    (Except.ok ()) (Except.error "optimizer crashed")).2.2.1 (by decide) rfl
  rw [h]
  decide

/- ### Report creation validation (`/report`, `app/routes/main.py` lines
58–76, and `ReportForm`, `app/forms.py`) -/

/-- The inline validation of the `/report` POST handler over the stripped
form fields: only presence checks plus the 0–120 integer check on age.
The expressions mirror lines 58–76 in order. -/
def report_route_errors (name age gender area description : String) : List String :=
  (if name = "" then ["Name is required"] else []) ++
  (if age = "" then ["Age is required"]
   else
     match pyIntFromChars age.toList with
     | some n => if n < 0 ∨ n > 120 then ["Age must be between 0 and 120"] else []
     | none => ["Age must be a valid number"]) ++
  (if gender = "" then ["Gender is required"] else []) ++
  (if area = "" then ["Location is required"] else []) ++
  (if description = "" then ["Description is required"] else [])

/-- The `/report` handler builds and commits the new Report exactly when
its inline validation produced no errors (a store failure would roll back;
validation is the only gate). -/
def report_route_persists (name age gender area description : String) : Bool :=
  (report_route_errors name age gender area description).isEmpty

/-- The `Length(min=10, max=2000)` validator declared on
`ReportForm.description` (`app/forms.py` lines 58–61), which the active
`/report` handler instantiates but never consults for persistence. -/
def reportForm_description_ok (d : String) : Bool :=
  decide (10 ≤ d.length) && decide (d.length ≤ 2000)

/-- C9 (code bug): the `/report` handler persists a submission whose
description is 5 characters long — its inline validation checks only
non-emptiness, contradicting the 10–2000 character constraint its own
form declares. -/
theorem report_route_persists_short_description :
    report_route_persists "John Doe" "25" "Male" "Springfield" "short" = true ∧
    reportForm_description_ok "short" = false ∧
    ("short".length < 10) := by
  exact ⟨by decide, by decide, by decide⟩

/-- Witness for C7 at a concrete input: `age_range="abc"` gives the same
`/filter` result as no age-range token. -/
theorem filter_malformed_age_range_ignored_witness :
    filterPage ⟨1, false⟩ ⟨"", "", "abc", "", "", "", "newest"⟩ 1000 wStore =
      filterPage ⟨1, false⟩ ⟨"", "", "", "", "", "", "newest"⟩ 1000 wStore :=
  filter_malformed_age_range_ignored ⟨1, false⟩ ⟨"", "", "", "", "", "", "newest"⟩
    "abc" 1000 wStore (by decide)
